import Mathlib

/-!
Verification of the roster-to-org-chart generator (`generate_org_chart.py`).

The Python module is embedded shallowly:
* a roster record is a Python dict with optional string fields; absence of a
  key is modelled by `none`, and Python string truthiness (`if d.get(k):`,
  false for both a missing key and the empty string) by `truthy`;
* `create_org_chart` builds a Graphviz `Digraph`; we model the graph
  description it constructs (the ordered node and edge statements together
  with the fixed graph attributes).  Direct dict indexing `d['k']` raises
  `KeyError` when the key is missing, so the construction is modelled in
  `Except String`;
* `create_html_wrapper` writes a fixed HTML document; we model the exact
  string it writes.
-/

/-- A roster record (`contactRoster` entry).  Every field of the Python dict
is optional here so that malformed records (missing keys) are representable,
as required by the loader's no-validation behaviour. -/
structure RosterRecord where
  id : Option String := none
  title : Option String := none
  name : Option String := none
  phone : Option String := none
  email : Option String := none
  category : Option String := none
  reportsTo : Option String := none
deriving DecidableEq

/-- Python truthiness of `d.get(k)` for a string-valued field: false when the
key is missing (`None`) or the value is the empty string. -/
def truthy : Option String → Bool
  | none => false
  | some s => !(s == "")

/-- One step of Python `str.replace`: scan the character list left to right;
at each position not covered by a previous match test whether `old` occurs
there, and if so emit `new` and skip the match (`skip` counts characters of a
match still to be consumed). -/
def replaceGo (old new : List Char) : List Char → Nat → List Char
  | [], _ => []
  | _ :: rest, Nat.succ k => replaceGo old new rest k
  | c :: rest, 0 =>
    if old.isPrefixOf (c :: rest) then new ++ replaceGo old new rest (old.length - 1)
    else c :: replaceGo old new rest 0

/-- Python `s.replace(old, new)` for a non-empty pattern: every non-overlapping
occurrence of `old`, found left to right, is replaced by `new`.  (The program
only calls it with the fixed pattern `"@redcross.org"`; the empty-pattern case,
where Python's behaviour differs, is never exercised.) -/
def pyReplace (s old new : String) : String :=
  if old.data.isEmpty then s
  else String.mk (replaceGo old.data new.data s.data 0)

/-- JavaScript `String.prototype.includes` / substring occurrence test. -/
def containsList : List Char → List Char → Bool
  | [], pat => pat.isEmpty
  | c :: rest, pat => pat.isPrefixOf (c :: rest) || containsList rest pat

/-- `containsSub s pat` is true iff `pat` occurs inside `s`. -/
def containsSub (s pat : String) : Bool :=
  containsList s.data pat.data

/-- The fixed category → fill-colour table of `create_org_chart`. -/
def colors : List (String × String) :=
  [("Command", "#ffcccc"),
   ("Operations", "#ccddff"),
   ("Logistics Section", "#ccffcc"),
   ("24 Hour Lines", "#ffccff"),
   ("default", "#f0f0f0")]

/-- Python `colors.get(key, colors['default'])`. -/
def colorsGet (key : String) : String :=
  match colors.find? (fun kv => kv.1 == key) with
  | some kv => kv.2
  | none => "#f0f0f0"

/-- `colors.get(person.get('category', ''), colors['default'])`. -/
def fillColor (category : Option String) : String :=
  colorsGet (category.getD "")

/-- The HTML-like node label built for a named record (lines 71-78 of the
source): title and name in bold, then a phone line if the phone field is
truthy, then an email line (with `'@redcross.org'` removed via `str.replace`)
if the email field is truthy, and a closing `>`. -/
def makeLabel (t nm : String) (phone email : Option String) : String :=
  let label := "<<B>" ++ t ++ "</B><BR/>" ++ ("<B>" ++ nm ++ "</B><BR/>")
  let label :=
    if truthy phone then
      label ++ ("<FONT POINT-SIZE=\x279\x27>Phone: " ++ phone.getD "" ++ "</FONT><BR/>")
    else label
  let label :=
    if truthy email then
      label ++ ("<FONT POINT-SIZE=\x279\x27>Email: " ++
        pyReplace (email.getD "") "@redcross.org" "" ++ "</FONT>")
    else label
  label ++ ">"

/-- A `dot.node(id, label=..., fillcolor=...)` statement. -/
structure DotNode where
  id : String
  label : String
  fillcolor : String
deriving DecidableEq

/-- A `dot.edge(tail, head)` statement: `tail` is the supervisor's id
(`person['reportsTo']`), `head` the subordinate's id (`person['id']`). -/
structure DotEdge where
  tail : String
  head : String
deriving DecidableEq

/-- The node statement `create_org_chart` registers for one record (lines
68-84): skipped when the name is missing or empty; otherwise the label needs
`person['title']` (a `KeyError` when absent) and the node key needs
`person['id']` (a `KeyError` when absent). -/
def buildNode (person : RosterRecord) : Except String (Option DotNode) :=
  if truthy person.name then
    match person.title with
    | none => Except.error "KeyError: title"
    | some t =>
      let label := makeLabel t (person.name.getD "") person.phone person.email
      let fc := fillColor person.category
      match person.id with
      | none => Except.error "KeyError: id"
      | some i => Except.ok (some { id := i, label := label, fillcolor := fc })
  else Except.ok none

/-- The node loop of `create_org_chart`, in roster order. -/
def buildNodes : List RosterRecord → Except String (List DotNode)
  | [] => Except.ok []
  | p :: rest =>
    match buildNode p, buildNodes rest with
    | Except.error e, _ => Except.error e
    | Except.ok none, r => r
    | Except.ok (some _), Except.error e => Except.error e
    | Except.ok (some n), Except.ok ns => Except.ok (n :: ns)

/-- `next((p for p in roster_data if p['id'] == person['reportsTo']), None)`:
scan the roster for the first record whose `id` equals `target`; a record
without an `id` key raises a `KeyError` if reached before a match. -/
def findSupervisor (target : String) : List RosterRecord → Except String (Option RosterRecord)
  | [] => Except.ok none
  | p :: rest =>
    match p.id with
    | none => Except.error "KeyError: id"
    | some i => if i == target then Except.ok (some p) else findSupervisor target rest

/-- The edge statement `create_org_chart` produces for one record (lines
87-92): only when both `person.get('name')` and `person.get('reportsTo')` are
truthy; the supervisor is resolved by id, and the edge is emitted only when
the supervisor exists and has a truthy name.  `dot.edge(...)` then reads
`person['id']` directly (a `KeyError` when absent). -/
def buildEdge (roster : List RosterRecord) (person : RosterRecord) : Except String (Option DotEdge) :=
  if truthy person.name && truthy person.reportsTo then
    match findSupervisor (person.reportsTo.getD "") roster with
    | Except.error e => Except.error e
    | Except.ok none => Except.ok none
    | Except.ok (some sup) =>
      if truthy sup.name then
        match person.id with
        | none => Except.error "KeyError: id"
        | some i => Except.ok (some { tail := person.reportsTo.getD "", head := i })
      else Except.ok none
  else Except.ok none

/-- The edge loop of `create_org_chart`, in roster order. -/
def buildEdges (roster : List RosterRecord) : List RosterRecord → Except String (List DotEdge)
  | [] => Except.ok []
  | p :: rest =>
    match buildEdge roster p, buildEdges roster rest with
    | Except.error e, _ => Except.error e
    | Except.ok none, r => r
    | Except.ok (some _), Except.error e => Except.error e
    | Except.ok (some e), Except.ok es => Except.ok (e :: es)

/-- The graph description assembled by `create_org_chart`: the fixed graph
attributes together with the ordered node and edge statements. -/
structure GraphDescription where
  comment : String
  rankdir : String
  graphLabel : String
  nodes : List DotNode
  edges : List DotEdge
deriving DecidableEq

/-- The graph description with the fixed attributes of `create_org_chart`
(lines 53-56 and 95-96) around the given node and edge statements. -/
def mkGraph (ns : List DotNode) (es : List DotEdge) : GraphDescription :=
  { comment := "Red Cross Incident Organization Chart"
    rankdir := "TB"
    graphLabel := "\\n\\nIncident Organization Chart\\nFLOCOM - DR 220-25\\nOperational Period: 18:00 20/10/2024 to 17:59 21/10/2024\\n\\n"
    nodes := ns
    edges := es }

/-- `create_org_chart` (lines 48-109), up to the delegated Graphviz layout:
the directed-graph description it hands to the layout engine. -/
def create_org_chart (roster_data : List RosterRecord) : Except String GraphDescription :=
  match buildNodes roster_data with
  | Except.error e => Except.error e
  | Except.ok ns =>
    match buildEdges roster_data roster_data with
    | Except.error e => Except.error e
    | Except.ok es => Except.ok (mkGraph ns es)

/-- The built-in `sample_roster` of `load_roster_from_localstorage`
(lines 18-39). -/
def sample_roster : List RosterRecord :=
  [{ id := some "cmd-dro", title := some "DRO Director", name := some "Virginia Mewborn",
     phone := some "917-670-8334", email := some "Virginia.Mewborn@redcross.org",
     category := some "Command" },
   { id := some "cmd-rcco", title := some "RCCO", name := some "Ryan Lock",
     phone := some "850-354-2342", email := some "Ryan.Lock3@redcross.org",
     category := some "Command", reportsTo := some "cmd-dro" },
   { id := some "cmd-cos", title := some "Chief of Staff", name := some "Janice Vannatta",
     phone := some "601-325-3656", email := some "Janice.Vannatta4@redcross.org",
     category := some "Command", reportsTo := some "cmd-dro" },
   { id := some "ops-ad", title := some "AD Operations", name := some "Patricia DAlessandro",
     phone := some "319-404-2096", email := some "Patricia.DAlessandro2@redcross.org",
     category := some "Operations", reportsTo := some "cmd-dro" },
   { id := some "ops-zone1", title := some "Zone Coordinator-Zone 1", name := some "Rick Schou",
     phone := some "980-721-8710", email := some "Rick.Schou@redcross.org",
     category := some "Operations", reportsTo := some "ops-ad" },
   { id := some "ops-zone2", title := some "Zone Coordinator-Zone 2", name := some "Bene Hunter",
     phone := some "941-224-3350", email := some "Bene.Hunter2@redcross.org",
     category := some "Operations", reportsTo := some "ops-ad" },
   { id := some "ops-mass", title := some "HQ Mass Care Chief", name := some "Brenda Bridges",
     phone := some "760-987-5452", email := some "brenda.bridges2@redcross.org",
     category := some "Operations", reportsTo := some "ops-ad" },
   { id := some "log-ad", title := some "AD Logistics", name := some "Marvin Williams",
     phone := some "931-237-3823", email := some "Marvin.Williams2@redcross.org",
     category := some "Logistics Section", reportsTo := some "cmd-dro" },
   { id := some "log-chief", title := some "HQ Logistics Chief", name := some "Margenia Hatfield",
     phone := some "765-602-9133", email := some "Margenia.Hatfield@redcross.org",
     category := some "Logistics Section", reportsTo := some "log-ad" },
   { id := some "log-transport", title := some "HQ Transportation Manager", name := some "Lee Meyer",
     phone := some "719-749-5672", email := some "Lee.Meyer@redcross.org",
     category := some "Logistics Section", reportsTo := some "log-chief" }]

/-- `load_roster_from_localstorage` when `roster.json` does not exist
(lines 42-46): the built-in sample roster is returned. -/
def load_roster_from_localstorage_nofile : List RosterRecord :=
  sample_roster

/-- `load_roster_from_localstorage` when `roster.json` exists (lines 42-44):
the parsed file content (`json.load(f)`) is returned verbatim, with no schema
validation. -/
def load_roster_from_localstorage_file (parsed : List RosterRecord) : List RosterRecord :=
  parsed

/-- The node `buildNode` registers for a well-formed named record. -/
def mkNode (p : RosterRecord) : DotNode :=
  { id := p.id.getD ""
    label := makeLabel (p.title.getD "") (p.name.getD "") p.phone p.email
    fillcolor := fillColor p.category }

/-- The edge the edge loop produces for one record, expressed with `find?`;
`buildEdge` agrees with it on rosters whose records all carry an id. -/
def edgeSpec (roster : List RosterRecord) (p : RosterRecord) : Option DotEdge :=
  if truthy p.name && truthy p.reportsTo then
    match roster.find? (fun q => q.id == some (p.reportsTo.getD "")) with
    | none => none
    | some sup =>
      if truthy sup.name then some { tail := p.reportsTo.getD "", head := p.id.getD "" }
      else none
  else none
def htmlPart1 : String :=
  "<!DOCTYPE html>\n" ++
  "<html lang=\"en\">\n" ++
  "<head>\n" ++
  "    <meta charset=\"UTF-8\">\n" ++
  "    <meta name=\"viewport\" content=\"width=device-width, initial-scale=1.0\">\n" ++
  "    <title>Red Cross Organization Chart</title>\n" ++
  "    <style>\n" ++
  "        body \x7b\n" ++
  "            font-family: Arial, sans-serif;\n" ++
  "            margin: 0;\n" ++
  "            padding: 20px;\n" ++
  "            background-color: #f5f5f5;\n" ++
  "        \x7d\n" ++
  "        .header \x7b\n" ++
  "            background: white;\n" ++
  "            padding: 20px;\n" ++
  "            border-bottom: 3px solid #dc2626;\n" ++
  "            margin-bottom: 20px;\n" ++
  "        \x7d\n" ++
  "        .chart-container \x7b\n" ++
  "            background: white;\n" ++
  "            padding: 20px;\n" ++
  "            border-radius: 8px;\n" ++
  "            box-shadow: 0 2px 4px rgba(0,0,0,0.1);\n" ++
  "            overflow-x: auto;\n" ++
  "        \x7d\n" ++
  "        svg \x7b\n" ++
  "            max-width: 100%;\n" ++
  "            height: auto;\n" ++
  "        \x7d\n" ++
  "        .footer \x7b\n" ++
  "            margin-top: 20px;\n" ++
  "            padding: 20px;\n" ++
  "            background: white;\n" ++
  "            border-top: 2px solid #333;\n" ++
  "        \x7d\n" ++
  "    </style>\n" ++
  "    <script>\n" ++
  "        // Make phone numbers and emails clickable\n" ++
  "        window.onload = function() \x7b\n" ++
  "            const svg = document.querySelector(\x27svg\x27);\n" ++
  "            if (svg) \x7b\n" ++
  "                // Find all text elements with phone numbers\n" ++
  "                const texts = svg.querySelectorAll(\x27text\x27);\n" ++
  "                texts.forEach(text => \x7b\n" ++
  "                    const content = text.textContent;\n" ++
  "                    // Phone number pattern\n" ++
  "                    if (content && "

def htmlPart2 : String :=
  ") \x7b\n" ++
  "                        const phone = content.match(/[0-9-]+/);\n" ++
  "                        if (phone) \x7b\n" ++
  "                            text.style.cursor = \x27pointer\x27;\n" ++
  "                            text.style.fill = \x27#2563eb\x27;\n" ++
  "                            text.onclick = () => window.location.href = \x27tel:\x27 + phone[0].replace(/-/g, \x27\x27);\n" ++
  "                        \x7d\n" ++
  "                    \x7d\n" ++
  "                    // Email pattern\n" ++
  "                    if (content && "

def htmlPart3 : String :=
  ") \x7b\n" ++
  "                        text.style.cursor = \x27pointer\x27;\n" ++
  "                        text.style.fill = \x27#2563eb\x27;\n" ++
  "                        text.onclick = () => \x7b\n" ++
  "                            const email = content.replace(\x27✉️\x27, \x27\x27).trim() + \x27@redcross.org\x27;\n" ++
  "                            window.location.href = \x27mailto:\x27 + email;\n" ++
  "                        \x7d;\n" ++
  "                    \x7d\n" ++
  "                \x7d);\n" ++
  "            \x7d\n" ++
  "        \x7d;\n" ++
  "    </script>\n" ++
  "</head>\n" ++
  "<body>\n" ++
  "    <div class=\"header\">\n" ++
  "        <h1>Incident Organization Chart</h1>\n" ++
  "        <p><strong>Incident Name:</strong> FLOCOM | <strong>DR Number:</strong> 220-25</p>\n" ++
  "        <p><strong>Operational Period:</strong> 18:00 20/10/2024 to 17:59 21/10/2024</p>\n" ++
  "    </div>\n" ++
  "    \n" ++
  "    <div class=\"chart-container\">\n" ++
  "        "

def htmlPart5 : String :=
  "\n" ++
  "        </object>\n" ++
  "    </div>\n" ++
  "    \n" ++
  "    <div class=\"footer\">\n" ++
  "        <p><strong>Prepared By:</strong> Gary Pelletier<br/>Information & Planning</p>\n" ++
  "        <p>Page 8 of 53</p>\n" ++
  "    </div>\n" ++
  "</body>\n" ++
  "</html>"

def htmlPart4 : String :=
  "\n" ++ "            " ++
  "<img src=\"org_chart.svg\" alt=\"Organization Chart\" />" ++ htmlPart5

/-- The guard of the phone branch in the wrapper's script (line 162 of the
source): a text element receives a `tel:` click handler only if its content
includes the telephone emoji marker. -/
def phoneClickCondition (content : String) : Bool :=
  containsSub content "📞"

/-- The guard of the email branch in the wrapper's script (line 171 of the
source): a text element receives a `mailto:` click handler only if its
content includes the envelope emoji marker. -/
def emailClickCondition (content : String) : Bool :=
  containsSub content "✉️"

/-- The full `html_content` template written by `create_html_wrapper`
(lines 115-202), split around its three landmark substrings: the two
marker checks of the embedded script and the `<object>` embed tag. -/
def html_content : String :=
  htmlPart1 ++ "content.includes(\x27📞\x27)" ++
  htmlPart2 ++ "content.includes(\x27✉️\x27)" ++
  htmlPart3 ++ "<object data=\"org_chart.svg\" type=\"image/svg+xml\" width=\"100%\">" ++
  htmlPart4

/-- `create_html_wrapper(svg_file='org_chart.svg')` (lines 111-208): the
document it writes to `org_chart.html`.  The body never uses the `svg_file`
parameter; the written content is the fixed template. -/
def create_html_wrapper (svg_file : String) : String :=
  html_content

theorem buildNode_eq_of_wf {p : RosterRecord} (hn : truthy p.name = true)
    (ht : p.title.isSome = true) (hi : p.id.isSome = true) :
    buildNode p = Except.ok (some (mkNode p)) := by
  obtain ⟨t, ht2⟩ := Option.isSome_iff_exists.mp ht
  obtain ⟨i, hi2⟩ := Option.isSome_iff_exists.mp hi
  simp [buildNode, hn, ht2, hi2, mkNode]

theorem buildNode_eq_none {p : RosterRecord} (hn : truthy p.name = false) :
    buildNode p = Except.ok none := by
  simp [buildNode, hn]

theorem buildNode_some {p : RosterRecord} {n : DotNode}
    (h : buildNode p = Except.ok (some n)) :
    truthy p.name = true ∧ p.title.isSome = true ∧ p.id.isSome = true ∧ n = mkNode p := by
  unfold buildNode at h
  cases hn : truthy p.name with
  | false => rw [hn] at h; simp at h
  | true =>
    rw [hn] at h
    cases ht : p.title with
    | none => rw [ht] at h; simp at h
    | some t =>
      rw [ht] at h
      cases hi : p.id with
      | none => rw [hi] at h; simp at h
      | some i =>
        rw [hi] at h
        simp only [if_true, Except.ok.injEq, Option.some.injEq] at h
        refine ⟨rfl, by simp [ht], by simp [hi], ?_⟩
        rw [← h]
        simp [mkNode, ht, hi]

theorem buildNodes_eq (roster : List RosterRecord)
    (h : ∀ p ∈ roster, truthy p.name = true → p.title.isSome = true ∧ p.id.isSome = true) :
    buildNodes roster = Except.ok ((roster.filter (fun p => truthy p.name)).map mkNode) := by
  induction roster with
  | nil => rfl
  | cons p rest ih =>
    have hrest := ih (fun q hq hq2 => h q (List.mem_cons_of_mem p hq) hq2)
    cases hn : truthy p.name with
    | true =>
      obtain ⟨ht, hi⟩ := h p (List.mem_cons_self p rest) hn
      rw [buildNodes, buildNode_eq_of_wf hn ht hi, hrest]
      simp [List.filter_cons, hn]
    | false =>
      rw [buildNodes, buildNode_eq_none hn, hrest]
      simp [List.filter_cons, hn]

theorem findSupervisor_eq (target : String) (l : List RosterRecord)
    (hid : ∀ p ∈ l, p.id.isSome = true) :
    findSupervisor target l = Except.ok (l.find? (fun q => q.id == some target)) := by
  induction l with
  | nil => rfl
  | cons p rest ih =>
    obtain ⟨i, hi⟩ := Option.isSome_iff_exists.mp (hid p (List.mem_cons_self p rest))
    have ihr := ih (fun q hq => hid q (List.mem_cons_of_mem p hq))
    by_cases hit : i = target
    · subst hit
      rw [findSupervisor, hi]
      simp [List.find?_cons, hi]
    · have h1 : (i == target) = false := by simp [hit]
      have h2 : (p.id == some target) = false := by simp [hi, hit]
      rw [findSupervisor, hi]
      simp [List.find?_cons, h1, h2, ihr]

theorem buildEdge_eq (roster : List RosterRecord) (p : RosterRecord)
    (hid : ∀ q ∈ roster, q.id.isSome = true) (hp : p.id.isSome = true) :
    buildEdge roster p = Except.ok (edgeSpec roster p) := by
  unfold buildEdge edgeSpec
  by_cases hc : (truthy p.name && truthy p.reportsTo) = true
  · rw [if_pos hc, if_pos hc, findSupervisor_eq _ _ hid]
    cases hf : roster.find? (fun q => q.id == some (p.reportsTo.getD "")) with
    | none => rfl
    | some sup =>
      cases hs : truthy sup.name with
      | false => simp [hs]
      | true =>
        obtain ⟨i, hi⟩ := Option.isSome_iff_exists.mp hp
        simp [hs, hi]
  · rw [if_neg hc, if_neg hc]

theorem buildEdges_eq (roster : List RosterRecord) (l : List RosterRecord)
    (hid : ∀ q ∈ roster, q.id.isSome = true) (hl : ∀ q ∈ l, q.id.isSome = true) :
    buildEdges roster l = Except.ok (l.filterMap (edgeSpec roster)) := by
  induction l with
  | nil => rfl
  | cons p rest ih =>
    have hp := hl p (List.mem_cons_self p rest)
    have ihr := ih (fun q hq => hl q (List.mem_cons_of_mem p hq))
    rw [buildEdges, buildEdge_eq roster p hid hp, ihr]
    cases he : edgeSpec roster p with
    | none => simp [List.filterMap_cons, he]
    | some e => simp [List.filterMap_cons, he]

theorem roster_id_unique {roster : List RosterRecord}
    (h : List.Pairwise (fun a b => a.id ≠ b.id) roster)
    {a b : RosterRecord} (ha : a ∈ roster) (hb : b ∈ roster) (hab : a.id = b.id) : a = b := by
  by_contra hne
  have hsymm : Symmetric (fun a b : RosterRecord => a.id ≠ b.id) :=
    fun x y hxy e => hxy e.symm
  exact (List.Pairwise.forall hsymm h ha hb hne) hab

theorem edgeSpec_some {roster : List RosterRecord} {p : RosterRecord} {e : DotEdge}
    (h : edgeSpec roster p = some e) :
    truthy p.name = true ∧ ∃ t, p.reportsTo = some t ∧ t ≠ "" ∧ e.tail = t ∧
      e.head = p.id.getD "" ∧
      ∃ sup, sup ∈ roster ∧ sup.id = some t ∧ truthy sup.name = true := by
  unfold edgeSpec at h
  split at h
  case isFalse => simp at h
  case isTrue hc =>
    obtain ⟨hn, hr⟩ := Bool.and_eq_true_iff.mp hc
    split at h
    case h_1 => simp at h
    case h_2 sup hfind =>
      split at h
      case isFalse => simp at h
      case isTrue hs =>
        have he := (Option.some.injEq _ _).mp h
        cases hrt : p.reportsTo with
        | none => rw [hrt] at hr; simp [truthy] at hr
        | some t =>
          have htne : t ≠ "" := by
            rw [hrt] at hr
            simpa [truthy] using hr
          have hpred := List.find?_some hfind
          have hmem := List.mem_of_find?_eq_some hfind
          refine ⟨hn, t, rfl, htne, ?_, ?_, sup, hmem, ?_, hs⟩
          · rw [← he]
            simp [hrt]
          · rw [← he]
          · simpa [hrt] using hpred

theorem edgeSpec_of_conditions {roster : List RosterRecord} {p : RosterRecord} {t : String}
    (hn : truthy p.name = true) (hrt : p.reportsTo = some t) (htne : t ≠ "")
    {sup : RosterRecord} (hfind : roster.find? (fun q => q.id == some t) = some sup)
    (hs : truthy sup.name = true) :
    edgeSpec roster p = some { tail := t, head := p.id.getD "" } := by
  have hr : truthy p.reportsTo = true := by simp [hrt, truthy, htne]
  unfold edgeSpec
  rw [if_pos (by simp [hn, hr])]
  rw [hrt]
  simp [hfind, hs]

theorem colorsGet_not_found {c : String}
    (h : ∀ k ∈ colors.map Prod.fst, c ≠ k) : colorsGet c = "#f0f0f0" := by
  have h1 : ("Command" == c) = false :=
    beq_eq_false_iff_ne.mpr (Ne.symm (h "Command" (by simp [colors])))
  have h2 : ("Operations" == c) = false :=
    beq_eq_false_iff_ne.mpr (Ne.symm (h "Operations" (by simp [colors])))
  have h3 : ("Logistics Section" == c) = false :=
    beq_eq_false_iff_ne.mpr (Ne.symm (h "Logistics Section" (by simp [colors])))
  have h4 : ("24 Hour Lines" == c) = false :=
    beq_eq_false_iff_ne.mpr (Ne.symm (h "24 Hour Lines" (by simp [colors])))
  have h5 : ("default" == c) = false :=
    beq_eq_false_iff_ne.mpr (Ne.symm (h "default" (by simp [colors])))
  simp [colorsGet, colors, List.find?, h1, h2, h3, h4, h5]

theorem create_org_chart_eq (roster : List RosterRecord)
    (hwf : ∀ p ∈ roster, p.id.isSome = true ∧ (truthy p.name = true → p.title.isSome = true)) :
    create_org_chart roster = Except.ok
      (mkGraph ((roster.filter (fun p => truthy p.name)).map mkNode)
               (roster.filterMap (edgeSpec roster))) := by
  have hid : ∀ p ∈ roster, p.id.isSome = true := fun p hp => (hwf p hp).1
  have hnodes := buildNodes_eq roster (fun p hp hn => ⟨(hwf p hp).2 hn, (hwf p hp).1⟩)
  have hedges := buildEdges_eq roster roster hid hid
  unfold create_org_chart
  rw [hnodes, hedges]

/-- C2: for every roster sequence whose records carry the `title` and `id`
fields the data model requires of them, each record with a non-empty name
yields exactly one registered node, keyed by its id, and each record whose
name is absent or empty yields zero nodes: the registered node list is
exactly the sublist of named records, each mapped to its single node
statement `mkNode`. -/
theorem c2_one_node_per_named_record (roster : List RosterRecord)
    (hwf : ∀ p ∈ roster, truthy p.name = true → p.title.isSome = true ∧ p.id.isSome = true) :
    buildNodes roster = Except.ok ((roster.filter (fun p => truthy p.name)).map mkNode) :=
  buildNodes_eq roster hwf

def c2w : List RosterRecord :=
  sample_roster ++ [{ name := some "" }, { phone := some "555-0000" }]

theorem c2_witness :
    buildNodes c2w = Except.ok ((c2w.filter (fun p => truthy p.name)).map mkNode) :=
  c2_one_node_per_named_record c2w (by decide)

/-- C4: when no `roster.json` file is present the loader returns exactly the
fixed built-in 10-record sample roster, whose first record has id `cmd-dro`
and title `DRO Director`. -/
theorem c4_default_roster :
    load_roster_from_localstorage_nofile = sample_roster ∧
    sample_roster.length = 10 ∧
    sample_roster.head?.map (fun r => (r.id, r.title)) =
      some (some "cmd-dro", some "DRO Director") :=
  ⟨rfl, rfl, rfl⟩

def c7NoTitle : RosterRecord :=
  { id := some "x1", name := some "Pat Smith", phone := some "555-0100" }

def c7NoId : RosterRecord :=
  { title := some "Planner", name := some "Lee Gray" }

/-- C7: loading an existing roster file returns the parsed record list
verbatim (no schema validation), and a record with a non-empty name but a
missing `title` or `id` field is accepted by the loader yet makes node
construction — and hence chart rendering — fail with a missing-field
(`KeyError`) error. -/
theorem c7_loader_verbatim_failure_downstream :
    (∀ parsed : List RosterRecord, load_roster_from_localstorage_file parsed = parsed) ∧
    buildNode c7NoTitle = Except.error "KeyError: title" ∧
    buildNode c7NoId = Except.error "KeyError: id" ∧
    create_org_chart (load_roster_from_localstorage_file [c7NoTitle]) =
      Except.error "KeyError: title" ∧
    create_org_chart (load_roster_from_localstorage_file [c7NoId]) =
      Except.error "KeyError: id" :=
  ⟨fun _ => rfl, rfl, rfl, rfl, rfl⟩

/-- C8: building the graph description from the same roster sequence twice
yields identical graph descriptions; the embedded construction is a pure
function of its input (it consults no clock or randomness), so it is
deterministic. -/
theorem c8_deterministic (roster_data : List RosterRecord) :
    create_org_chart roster_data = create_org_chart roster_data := rfl

def c1cexBoss : RosterRecord :=
  { id := some "", title := some "Director", name := some "Boss Person" }

def c1cexWorker : RosterRecord :=
  { id := some "w1", title := some "Worker", name := some "Alice Worker",
    reportsTo := some "" }

def c1cexRoster : List RosterRecord := [c1cexBoss, c1cexWorker]

/-- C1 counterexample: in the roster `[c1cexBoss, c1cexWorker]` the worker
has a non-empty name and `reportsTo = ""`, and `""` is the id of the boss
record, which also has a non-empty name — so the claim as stated requires a
registered edge from `""` to `w1`.  The code, however, tests
`person.get('reportsTo')` for Python truthiness, and the empty string is
falsy, so the edge loop produces no edge at all: the registered edge list is
empty. -/
theorem c1_counterexample :
    truthy c1cexWorker.name = true ∧
    c1cexWorker.reportsTo = some "" ∧
    c1cexBoss ∈ c1cexRoster ∧
    c1cexBoss.id = some "" ∧
    truthy c1cexBoss.name = true ∧
    buildEdges c1cexRoster c1cexRoster = Except.ok [] :=
  ⟨rfl, rfl, List.mem_cons_self _ _, rfl, rfl, rfl⟩

/-- C1 (amended): for every roster sequence satisfying the data-model
invariants (every record has an `id`, ids pairwise distinct), the edge loop
raises no error, and for every record `R` with `reportsTo = P` the directed
edge `P → R` is registered if and only if `R` has a non-empty name, `P` is
non-empty (the code treats an empty `reportsTo` string as absent), and `P`
is the id of some roster record that also has a non-empty name; in every
other case no edge is produced for `R`. -/
theorem c1_edge_iff_amended (roster : List RosterRecord)
    (hid : ∀ p ∈ roster, p.id.isSome = true)
    (huniq : List.Pairwise (fun a b => a.id ≠ b.id) roster) :
    ∃ es, buildEdges roster roster = Except.ok es ∧
      ∀ R ∈ roster, ∀ P, R.reportsTo = some P →
        (({ tail := P, head := R.id.getD "" } : DotEdge) ∈ es ↔
          truthy R.name = true ∧ P ≠ "" ∧
            ∃ Q, Q ∈ roster ∧ Q.id = some P ∧ truthy Q.name = true) := by
  refine ⟨roster.filterMap (edgeSpec roster), buildEdges_eq roster roster hid hid, ?_⟩
  intro R hR P hP
  constructor
  · intro hmem
    obtain ⟨Rp, hRp, hspec⟩ := List.mem_filterMap.mp hmem
    obtain ⟨hn, t, hrt, htne, htail, hhead, sup, hsupmem, hsupid, hsupname⟩ :=
      edgeSpec_some hspec
    obtain ⟨ri, hri⟩ := Option.isSome_iff_exists.mp (hid R hR)
    obtain ⟨rpi, hrpi⟩ := Option.isSome_iff_exists.mp (hid Rp hRp)
    have hgd : R.id.getD "" = Rp.id.getD "" := hhead
    rw [hri, hrpi] at hgd
    simp only [Option.getD_some] at hgd
    have hids : Rp.id = R.id := by rw [hri, hrpi, hgd]
    have hRpR : Rp = R := roster_id_unique huniq hRp hR hids
    subst hRpR
    have htP : t = P := by simpa using htail.symm
    subst htP
    exact ⟨hn, htne, sup, hsupmem, hsupid, hsupname⟩
  · rintro ⟨hname, hPne, Q, hQmem, hQid, hQname⟩
    apply List.mem_filterMap.mpr
    refine ⟨R, hR, ?_⟩
    have hex : ∃ x, x ∈ roster ∧ (fun q => q.id == some P) x = true :=
      ⟨Q, hQmem, by simp [hQid]⟩
    obtain ⟨sup, hfind⟩ := Option.isSome_iff_exists.mp (List.find?_isSome.mpr hex)
    have hsupid : sup.id = some P := by simpa using List.find?_some hfind
    have hsupmem := List.mem_of_find?_eq_some hfind
    have hsupQ : sup = Q := roster_id_unique huniq hsupmem hQmem (by rw [hsupid, hQid])
    have hsupname : truthy sup.name = true := by rw [hsupQ]; exact hQname
    exact edgeSpec_of_conditions hname hP hPne hfind hsupname

def c1wBoss : RosterRecord :=
  { id := some "cmd", title := some "Director", name := some "Dana Boss" }

def c1wWorker : RosterRecord :=
  { id := some "w1", title := some "Worker", name := some "Alice Worker",
    reportsTo := some "cmd" }

def c1wVacant : RosterRecord :=
  { id := some "w2", title := some "Vacant Seat", name := some "",
    reportsTo := some "cmd" }

def c1wRoster : List RosterRecord := [c1wBoss, c1wWorker, c1wVacant]

theorem c1_witness :
    ∃ es, buildEdges c1wRoster c1wRoster = Except.ok es ∧
      ∀ R ∈ c1wRoster, ∀ P, R.reportsTo = some P →
        (({ tail := P, head := R.id.getD "" } : DotEdge) ∈ es ↔
          truthy R.name = true ∧ P ≠ "" ∧
            ∃ Q, Q ∈ c1wRoster ∧ Q.id = some P ∧ truthy Q.name = true) :=
  c1_edge_iff_amended c1wRoster (by decide) (by decide)

/-- C3: for every roster sequence satisfying the data-model field
requirements, if some record's `reportsTo` references an id that matches no
record in the sequence, chart rendering still succeeds — `create_org_chart`
returns a graph description rather than an error — and that description
contains no edge out of the dangling id `P` (in particular, no edge for the
referencing record). -/
theorem c3_dangling_reference_ok (roster : List RosterRecord)
    (hwf : ∀ p ∈ roster, p.id.isSome = true ∧ (truthy p.name = true → p.title.isSome = true))
    (R : RosterRecord) (hR : R ∈ roster) (P : String) (hP : R.reportsTo = some P)
    (hmiss : ∀ Q ∈ roster, Q.id ≠ some P) :
    ∃ g, create_org_chart roster = Except.ok g ∧ ∀ e ∈ g.edges, e.tail ≠ P := by
  refine ⟨_, create_org_chart_eq roster hwf, ?_⟩
  intro e he
  simp only [mkGraph] at he
  obtain ⟨p, hpmem, hspec⟩ := List.mem_filterMap.mp he
  obtain ⟨hn, t, hrt, htne, htail, hhead, sup, hsupmem, hsupid, hsname⟩ :=
    edgeSpec_some hspec
  intro htP
  exact hmiss sup hsupmem (by rw [hsupid, ← htail, htP])

def c3wRec : RosterRecord :=
  { id := some "a1", title := some "Planner", name := some "Chris Field",
    reportsTo := some "ghost-id" }

def c3w : List RosterRecord := [c3wRec]

theorem c3_witness :
    ∃ g, create_org_chart c3w = Except.ok g ∧ ∀ e ∈ g.edges, e.tail ≠ "ghost-id" :=
  c3_dangling_reference_ok c3w (by decide) c3wRec (by decide) "ghost-id" (by decide)
    (by decide)

/-- C5: for every record rendered as a node, a `Command` category yields the
fill colour `#ffcccc`, and an absent category — or any category that is not
one of the fixed table's five keys — yields the default gray `#f0f0f0`. -/
theorem c5_category_color (p : RosterRecord) (n : DotNode)
    (h : buildNode p = Except.ok (some n)) :
    (p.category = some "Command" → n.fillcolor = "#ffcccc") ∧
    ((p.category = none ∨ ∀ k ∈ colors.map Prod.fst, p.category ≠ some k) →
      n.fillcolor = "#f0f0f0") := by
  obtain ⟨hn, ht, hi, hmk⟩ := buildNode_some h
  subst hmk
  constructor
  · intro hc
    simp [mkNode, fillColor, hc, colorsGet, colors, List.find?]
  · intro hc
    rcases hc with hnone | hkeys
    · have : colorsGet "" = "#f0f0f0" := colorsGet_not_found (by decide)
      simp [mkNode, fillColor, hnone, this]
    · cases hcat : p.category with
      | none =>
        have : colorsGet "" = "#f0f0f0" := colorsGet_not_found (by decide)
        simp [mkNode, fillColor, hcat, this]
      | some c =>
        have hck : ∀ k ∈ colors.map Prod.fst, c ≠ k := by
          intro k hk he
          exact hkeys k hk (by rw [hcat, he])
        have : colorsGet c = "#f0f0f0" := colorsGet_not_found hck
        simp [mkNode, fillColor, hcat, this]

def c5wCmd : RosterRecord :=
  { id := some "n1", title := some "Lead", name := some "Ana Cruz",
    category := some "Command" }

def c5wFin : RosterRecord :=
  { id := some "n2", title := some "Analyst", name := some "Bo Reyes",
    category := some "Finance" }

theorem c5_witness :
    (mkNode c5wCmd).fillcolor = "#ffcccc" ∧ (mkNode c5wFin).fillcolor = "#f0f0f0" :=
  ⟨(c5_category_color c5wCmd (mkNode c5wCmd) rfl).1 rfl,
   (c5_category_color c5wFin (mkNode c5wFin) rfl).2 (Or.inr (by decide))⟩

theorem str_regroup (a b c d e : String) :
    (a ++ ((b ++ c) ++ d)) ++ e = (((a ++ b) ++ c) ++ d) ++ e := by
  rw [String.append_assoc a b c, String.append_assoc a (b ++ c) d]

theorem makeLabel_email_split (t nm : String) (ph : Option String) (em : String)
    (hem : truthy (some em) = true) :
    ∃ before, makeLabel t nm ph (some em) =
      before ++ "<FONT POINT-SIZE=\x279\x27>Email: " ++ pyReplace em "@redcross.org" "" ++
        "</FONT>" ++ ">" := by
  simp only [makeLabel, hem, eq_self_iff_true, if_true, Option.getD_some]
  exact ⟨_, str_regroup _ _ _ _ _⟩

/-- C9: for every record rendered as a node whose email field is present and
non-empty, the node label displays the email with every occurrence of the
literal string `@redcross.org` removed (Python `str.replace`), rather than
the full stored email value. -/
theorem c9_email_suffix_stripped (p : RosterRecord) (n : DotNode) (e : String)
    (h : buildNode p = Except.ok (some n)) (he : p.email = some e) (hne : e ≠ "") :
    ∃ before, n.label =
      before ++ "<FONT POINT-SIZE=\x279\x27>Email: " ++ pyReplace e "@redcross.org" "" ++
        "</FONT>" ++ ">" := by
  obtain ⟨hn, ht, hi, hmk⟩ := buildNode_some h
  subst hmk
  have hte : truthy (some e) = true := by simp [truthy, hne]
  have hlb : (mkNode p).label =
      makeLabel (p.title.getD "") (p.name.getD "") p.phone p.email := rfl
  rw [hlb, he]
  exact makeLabel_email_split (p.title.getD "") (p.name.getD "") p.phone e hte

def c9wRec : RosterRecord :=
  { id := some "m1", title := some "Chief", name := some "Sam Pine",
    email := some "Sam.Pine@redcross.org" }

theorem c9_witness :
    ∃ before, (mkNode c9wRec).label =
      before ++ "<FONT POINT-SIZE=\x279\x27>Email: " ++
        pyReplace "Sam.Pine@redcross.org" "@redcross.org" "" ++ "</FONT>" ++ ">" :=
  c9_email_suffix_stripped c9wRec (mkNode c9wRec) "Sam.Pine@redcross.org" rfl rfl
    (by decide)

/-- C6 (refuted — code bug): the wrapper's embedded script attaches `tel:`
and `mailto:` click handlers only to SVG text whose content contains the
`📞` or `✉️` emoji markers (those very checks occur in `html_content`), but
the renderer's node labels write the contact lines as `Phone: ...` and
`Email: ...` and never contain either marker — shown here for every node of
the built-in roster — so the script's handlers never attach to the phone and
email text the renderer produces. -/
theorem c6_click_handlers_never_attach :
    (∃ p1 p2, html_content = p1 ++ "content.includes(\x27📞\x27)" ++ p2) ∧
    (∃ p1 p2, html_content = p1 ++ "content.includes(\x27✉️\x27)" ++ p2) ∧
    ∃ ns, buildNodes sample_roster = Except.ok ns ∧ ns.length = 10 ∧
      (ns.all fun n => containsSub n.label "Phone: " && containsSub n.label "Email: ")
        = true ∧
      (ns.all fun n => !phoneClickCondition n.label && !emailClickCondition n.label)
        = true := by
  refine ⟨⟨htmlPart1,
            htmlPart2 ++ "content.includes(\x27✉️\x27)" ++ htmlPart3 ++
              "<object data=\"org_chart.svg\" type=\"image/svg+xml\" width=\"100%\">" ++
              htmlPart4, ?_⟩,
          ⟨htmlPart1 ++ "content.includes(\x27📞\x27)" ++ htmlPart2,
            htmlPart3 ++
              "<object data=\"org_chart.svg\" type=\"image/svg+xml\" width=\"100%\">" ++
              htmlPart4, ?_⟩, ?_⟩
  · simp only [html_content, String.append_assoc]
  · simp only [html_content, String.append_assoc]
  · refine ⟨_, rfl, ?_, ?_, ?_⟩ <;> decide

/-- C10: the wrapper emitter ignores its `svg_file` argument — every call
writes exactly the same document — and the vector artifact referenced inside
that document is always the fixed name `org_chart.svg` (both in the
`<object>` embed and the `<img>` fallback). -/
theorem c10_wrapper_output_fixed (svg_file : String) :
    create_html_wrapper svg_file = create_html_wrapper "org_chart.svg" ∧
    (∃ p1 p2, create_html_wrapper svg_file =
      p1 ++ "<object data=\"org_chart.svg\" type=\"image/svg+xml\" width=\"100%\">" ++ p2) ∧
    ∃ q1 q2, create_html_wrapper svg_file =
      q1 ++ "<img src=\"org_chart.svg\" alt=\"Organization Chart\" />" ++ q2 := by
  refine ⟨rfl,
    ⟨htmlPart1 ++ "content.includes(\x27📞\x27)" ++ htmlPart2 ++
       "content.includes(\x27✉️\x27)" ++ htmlPart3, htmlPart4, rfl⟩,
    ⟨htmlPart1 ++ "content.includes(\x27📞\x27)" ++ htmlPart2 ++
       "content.includes(\x27✉️\x27)" ++ htmlPart3 ++
       "<object data=\"org_chart.svg\" type=\"image/svg+xml\" width=\"100%\">" ++
       "\n" ++ "            ", htmlPart5, ?_⟩⟩
  simp only [create_html_wrapper, html_content, htmlPart4, String.append_assoc]

theorem c8_witness :
    create_org_chart sample_roster = create_org_chart sample_roster :=
  c8_deterministic sample_roster

theorem c10_witness :
    create_html_wrapper "some_other_name.svg" = create_html_wrapper "org_chart.svg" ∧
    (∃ p1 p2, create_html_wrapper "some_other_name.svg" =
      p1 ++ "<object data=\"org_chart.svg\" type=\"image/svg+xml\" width=\"100%\">" ++ p2) ∧
    ∃ q1 q2, create_html_wrapper "some_other_name.svg" =
      q1 ++ "<img src=\"org_chart.svg\" alt=\"Organization Chart\" />" ++ q2 :=
  c10_wrapper_output_fixed "some_other_name.svg"
